import Mathlib

/-!
Verification of the movie catalog backend (src/Backend/server.js).

The file shallowly embeds the data model and the request handlers of the
backend.  External effects are made explicit:

* the result of a catalog-store query (mysql `executeQuery`) is passed in as
  an `Option (List Movie)` / `Option (List String)` / `Option Nat` argument,
  `none` modelling a failed query or an unavailable connection (the JS helper
  returns `null` in both cases) and `some rows` a successful query;
* the process-global `movies` array (the static seed set) is threaded through
  every handler as explicit state: each handler returns its response together
  with the seed list as it stands after the handler ran, so that in-place
  mutation (JavaScript `Array.prototype.sort` sorts in place) is visible.

Numeric conventions: the `rating` column is `DECIMAL(2,1)`, so ratings are
stored here as whole numbers of tenths (`4.8` becomes `48`); the JS comparator
`(a, b) => b.rating - a.rating` orders exactly as `≥` on tenths.  Query
parameters go through `parseInt` in the source and are modelled as natural
numbers.  JavaScript string truthiness (absent or empty string is falsy) is
modelled by `truthy` on `Option String`.
-/

/-- A movie record, after the source's seed objects and the `movies` table
columns (`created_at`/`updated_at` are store-managed and absent from the
in-memory records, so they are not modelled). -/
structure Movie where
  id : Nat
  title : String
  year : Nat
  genre : String
  rating : Nat
  duration : String
  description : String
  poster_url : String
  trailer_url : String
deriving DecidableEq

/-- Default media bucket name (`process.env.S3_BUCKET_NAME` fallback). -/
def S3_BUCKET : String := "your-movie-media-bucket"

/-- Seed movie 1 of the static seed set. -/
def quantumNexus : Movie :=
  { id := 1, title := "Quantum Nexus", year := 2024, genre := "sci-fi", rating := 48,
    duration := "142 min", description := "A mind-bending journey through parallel dimensions",
    poster_url := "https://" ++ S3_BUCKET ++ ".s3.amazonaws.com/posters/quantum-nexus.jpg",
    trailer_url := "https://" ++ S3_BUCKET ++ ".s3.amazonaws.com/trailers/quantum-nexus.mp4" }

/-- Seed movie 2 of the static seed set. -/
def shadowProtocol : Movie :=
  { id := 2, title := "Shadow Protocol", year := 2024, genre := "action", rating := 45,
    duration := "128 min", description := "Elite agents face their greatest challenge",
    poster_url := "https://" ++ S3_BUCKET ++ ".s3.amazonaws.com/posters/shadow-protocol.jpg",
    trailer_url := "https://" ++ S3_BUCKET ++ ".s3.amazonaws.com/trailers/shadow-protocol.mp4" }

/-- Seed movie 3 of the static seed set. -/
def theLastSymphony : Movie :=
  { id := 3, title := "The Last Symphony", year := 2024, genre := "drama", rating := 47,
    duration := "156 min", description := "A musician's final masterpiece",
    poster_url := "https://" ++ S3_BUCKET ++ ".s3.amazonaws.com/posters/last-symphony.jpg",
    trailer_url := "https://" ++ S3_BUCKET ++ ".s3.amazonaws.com/trailers/last-symphony.mp4" }

/-- Seed movie 4 of the static seed set. -/
def cosmicComedyClub : Movie :=
  { id := 4, title := "Cosmic Comedy Club", year := 2024, genre := "comedy", rating := 42,
    duration := "98 min", description := "Laughs from across the galaxy",
    poster_url := "https://" ++ S3_BUCKET ++ ".s3.amazonaws.com/posters/cosmic-comedy.jpg",
    trailer_url := "https://" ++ S3_BUCKET ++ ".s3.amazonaws.com/trailers/cosmic-comedy.mp4" }

/-- Seed movie 5 of the static seed set. -/
def digitalPhantom : Movie :=
  { id := 5, title := "Digital Phantom", year := 2024, genre := "thriller", rating := 46,
    duration := "134 min", description := "Reality and virtuality collide",
    poster_url := "https://" ++ S3_BUCKET ++ ".s3.amazonaws.com/posters/digital-phantom.jpg",
    trailer_url := "https://" ++ S3_BUCKET ++ ".s3.amazonaws.com/trailers/digital-phantom.mp4" }

/-- Seed movie 6 of the static seed set. -/
def neonNights : Movie :=
  { id := 6, title := "Neon Nights", year := 2024, genre := "action", rating := 44,
    duration := "118 min", description := "Cyberpunk adventure in Neo-Tokyo",
    poster_url := "https://" ++ S3_BUCKET ++ ".s3.amazonaws.com/posters/neon-nights.jpg",
    trailer_url := "https://" ++ S3_BUCKET ++ ".s3.amazonaws.com/trailers/neon-nights.mp4" }

/-- The static seed set, the source's global `movies` array in its initial
(process start) order. -/
def movies : List Movie :=
  [quantumNexus, shadowProtocol, theLastSymphony, cosmicComedyClub, digitalPhantom, neonNights]

/-- The ordering used by the source's rating comparators
(`(a, b) => b.rating - a.rating`): `a` may precede `b` iff `a`'s rating is at
least `b`'s, i.e. descending by rating. -/
def ratingDesc (a b : Movie) : Prop := b.rating ≤ a.rating

instance : DecidableRel ratingDesc :=
  fun a b => inferInstanceAs (Decidable (b.rating ≤ a.rating))

instance : IsTotal Movie ratingDesc := ⟨fun a b => le_total b.rating a.rating⟩

instance : IsTrans Movie ratingDesc := ⟨fun _ _ _ h1 h2 => le_trans h2 h1⟩

/-- Model of `arr.sort((a, b) => b.rating - a.rating)`: a stable sort placing
higher-rated movies first (`Array.prototype.sort` is stable, as is insertion
sort). -/
def sortByRatingDesc (ms : List Movie) : List Movie := ms.insertionSort ratingDesc

/-- Model of JavaScript `String.prototype.toLowerCase` on the ASCII strings
appearing here, written over the character list so that it evaluates by
kernel reduction. -/
def lowerStr (s : String) : String := ⟨s.data.map Char.toLower⟩

/-- Substring test on character lists: does `needle` occur contiguously inside
`hay`?  Model of `String.prototype.includes`. -/
def containsSub : List Char → List Char → Bool
  | [], needle => needle.isEmpty
  | c :: t, needle => needle.isPrefixOf (c :: t) || containsSub t needle

/-- Model of `hay.includes(needle)`. -/
def strIncludes (hay needle : String) : Bool := containsSub hay.data needle.data

/-- JavaScript truthiness of an optional string parameter: absent
(`undefined`) and the empty string are falsy, everything else truthy. -/
def truthy : Option String → Bool
  | none => false
  | some s => s ≠ ""

/-- The genre predicate the List route's in-memory branch filters by, as
described by the guard `if (genre && genre !== 'all')`: when a non-empty
genre other than the sentinel `"all"` is given, require an exact match. -/
def genreOk (genre : Option String) (m : Movie) : Bool :=
  match genre with
  | none => true
  | some g => if g == "" || g == "all" then true else m.genre == g

/-- The search predicate the List route's in-memory branch filters by: when a
non-empty search term is given, require the lower-cased title or description
to contain the lower-cased term. -/
def searchOk (search : Option String) (m : Movie) : Bool :=
  match search with
  | none => true
  | some s =>
    if s == "" then true
    else
      strIncludes (lowerStr m.title) (lowerStr s) || strIncludes (lowerStr m.description) (lowerStr s)

/-- First in-memory filter of the List route: genre. -/
def genreStage (genre : Option String) (ms : List Movie) : List Movie :=
  match genre with
  | none => ms
  | some g => if g == "" || g == "all" then ms else ms.filter (fun m => m.genre == g)

/-- Second in-memory filter of the List route: search term over lower-cased
title and description. -/
def searchStage (search : Option String) (ms : List Movie) : List Movie :=
  match search with
  | none => ms
  | some s =>
    if s == "" then ms
    else
      ms.filter (fun m =>
        strIncludes (lowerStr m.title) (lowerStr s) || strIncludes (lowerStr m.description) (lowerStr s))

/-- The List route's in-memory filter pipeline: genre filter, then search
filter, exactly as the two sequential `Array.prototype.filter` calls. -/
def listFilter (genre search : Option String) (ms : List Movie) : List Movie :=
  searchStage search (genreStage genre ms)

/-- Model of `movieList.slice(start, start + limit)` with
`start = parseInt(offset)`. -/
def paginate (lim off : Nat) (ms : List Movie) : List Movie := (ms.drop off).take lim

/-- Response shape of the List route.  `page` models
`Math.floor(parseInt(offset) / parseInt(limit)) + 1`; for `limit = 0` the
source produces `NaN`, which has no counterpart here, so theorems about
`page` assume `0 < limit`. -/
structure ListResponse where
  movies : List Movie
  total : Nat
  page : Nat
  limit : Nat
deriving DecidableEq

/-- Response of `GET /api/movies`.  `dbMovies` is the result of the unfiltered
probe query (`SELECT * FROM movies ORDER BY rating DESC`), `dbFiltered` of the
second, filtered and paginated query; the in-memory branch runs iff the probe
failed or returned zero rows, and a failed second query leaves the probe rows
in place (`if (filteredMovies) movieList = filteredMovies`). -/
def listResult (dbMovies dbFiltered : Option (List Movie)) (genre search : Option String)
    (lim off : Nat) (ms : List Movie) : ListResponse :=
  match dbMovies with
  | some (m :: rest) =>
    let rows := dbFiltered.getD (m :: rest)
    { movies := rows, total := rows.length, page := off / lim + 1, limit := lim }
  | _ =>
    let page := paginate lim off (listFilter genre search ms)
    { movies := page, total := page.length, page := off / lim + 1, limit := lim }

/-- `GET /api/movies` with the seed-set state threaded through (the route
never writes to the `movies` array). -/
def listHandler (dbMovies dbFiltered : Option (List Movie)) (genre search : Option String)
    (lim off : Nat) (ms : List Movie) : ListResponse × List Movie :=
  (listResult dbMovies dbFiltered genre search lim off ms, ms)

/-- Outcome of `GET /api/movies/:id`: a movie serialized with status 200, or
status 404 with an error message. -/
inductive GetByIdResult
  | found (m : Movie)
  | notFound
deriving DecidableEq

/-- Result of `GET /api/movies/:id`: if the store query succeeded with at
least one row, that row; otherwise (query failed, or returned zero rows) the
seed-set lookup `movies.find(m => m.id === id)`, and 404 only when that also
misses. -/
def getByIdResult (dbMovie : Option (List Movie)) (id : Nat) (ms : List Movie) : GetByIdResult :=
  match dbMovie with
  | some (m :: _) => .found m
  | _ =>
    match ms.find? (fun m => m.id == id) with
    | some m => .found m
    | none => .notFound

/-- `GET /api/movies/:id` with the seed-set state threaded through. -/
def getByIdHandler (dbMovie : Option (List Movie)) (id : Nat) (ms : List Movie) :
    GetByIdResult × List Movie :=
  (getByIdResult dbMovie id ms, ms)

/-- Outcome of `POST /api/movies`: 400 on missing required fields, 201 with
the new id, or 500 when the insert query fails. -/
inductive CreateResult
  | validationError
  | created (id : Nat)
  | storeError
deriving DecidableEq

/-- Result of `POST /api/movies` paired with whether a row was inserted into
the store.  `store` is the outcome of the insert query: `some newId` on
success, `none` when the store is unreachable or the query fails.  The
validation guard `if (!title || !genre)` returns 400 before any query runs. -/
def createResult (title genre : Option String) (store : Option Nat) : CreateResult × Bool :=
  if !truthy title || !truthy genre then (.validationError, false)
  else
    match store with
    | some newId => (.created newId, true)
    | none => (.storeError, false)

/-- `POST /api/movies` with the seed-set state threaded through: the route
never touches the in-memory `movies` array (writes are store-only). -/
def createHandler (title genre : Option String) (store : Option Nat) (ms : List Movie) :
    (CreateResult × Bool) × List Movie :=
  (createResult title genre store, ms)

/-- `GET /api/movies/trending`: if the store query succeeded with at least
one row, those rows and an untouched seed list; otherwise
`movies.sort((a, b) => b.rating - a.rating).slice(0, parseInt(limit))` —
`Array.prototype.sort` sorts the global array in place, so the handler's
post-state is the sorted seed list. -/
def trendingHandler (dbMovies : Option (List Movie)) (lim : Nat) (ms : List Movie) :
    List Movie × List Movie :=
  match dbMovies with
  | some (m :: rest) => (m :: rest, ms)
  | _ => ((sortByRatingDesc ms).take lim, sortByRatingDesc ms)

/-- Payload of a successful `GET /api/recommendations/:movieId` response. -/
structure RecPayload where
  recommendations : List Movie
  basedOn : String
  genre : String
deriving DecidableEq

/-- Outcome of `GET /api/recommendations/:movieId`. -/
inductive RecResult
  | ok (p : RecPayload)
  | notFound
deriving DecidableEq

/-- Result of `GET /api/recommendations/:movieId`.  `baseQ` is the outcome of
the base-movie query, `recQ` of the same-genre recommendations query.  The
guard `if (!baseMovie || baseMovie.length === 0)` returns 404 both when the
store is unavailable (`null`) and when the row is absent; the in-memory
branch is reached only when the base query returned a row and the second
query then failed (an empty `recommendations` array is truthy and is
returned as-is). -/
def recommendationsResult (baseQ recQ : Option (List Movie)) (movieId lim : Nat)
    (ms : List Movie) : RecResult :=
  match baseQ with
  | none => .notFound
  | some [] => .notFound
  | some (m :: _) =>
    match recQ with
    | some recs => .ok { recommendations := recs, basedOn := m.title, genre := m.genre }
    | none =>
      match ms.find? (fun x => x.id == movieId) with
      | none => .notFound
      | some im =>
        .ok { recommendations :=
                (sortByRatingDesc (ms.filter (fun x => x.genre == im.genre && x.id != movieId))).take lim,
              basedOn := im.title, genre := im.genre }

/-- `GET /api/recommendations/:movieId` with the seed-set state threaded
through (the fallback sorts a fresh filtered array, not the seed list). -/
def recommendationsHandler (baseQ recQ : Option (List Movie)) (movieId lim : Nat)
    (ms : List Movie) : RecResult × List Movie :=
  (recommendationsResult baseQ recQ movieId lim ms, ms)

/-- Lexicographic comparison of character lists by code point, the order
`Array.prototype.sort()` uses by default on (ASCII) strings. -/
def strLeB : List Char → List Char → Bool
  | [], _ => true
  | _ :: _, [] => false
  | a :: as, b :: bs => if a = b then strLeB as bs else decide (a.toNat < b.toNat)

/-- Default JavaScript string order as a relation on strings. -/
def genreLe (a b : String) : Prop := strLeB a.data b.data = true

instance : DecidableRel genreLe :=
  fun a b => inferInstanceAs (Decidable (strLeB a.data b.data = true))

/-- First-occurrence deduplication with an accumulator of already-seen
elements: the order `new Set(array)` preserves. -/
def dedupeAux [DecidableEq α] : List α → List α → List α
  | [], _ => []
  | x :: xs, seen => if x ∈ seen then dedupeAux xs seen else x :: dedupeAux xs (x :: seen)

/-- Model of `[...new Set(l)]`. -/
def dedupeFirst [DecidableEq α] (l : List α) : List α := dedupeAux l []

/-- Result of `GET /api/genres`.  The store branch is taken whenever the
query did not fail (`if (genres)`) — even for zero rows; the fallback is
`[...new Set(movies.map(m => m.genre))].sort()`. -/
def genresResult (db : Option (List String)) (ms : List Movie) : List String :=
  match db with
  | some rows => rows
  | none => (dedupeFirst (ms.map (fun m => m.genre))).insertionSort genreLe

/-- `GET /api/genres` with the seed-set state threaded through. -/
def genresHandler (db : Option (List String)) (ms : List Movie) :
    List String × List Movie :=
  (genresResult db ms, ms)

/- ------------------------------------------------------------------ -/
/- Helper lemmas                                                      -/
/- ------------------------------------------------------------------ -/

lemma genreStage_sublist (genre : Option String) (ms : List Movie) :
    List.Sublist (genreStage genre ms) ms := by
  cases genre with
  | none => exact List.Sublist.refl ms
  | some g =>
    simp only [genreStage]
    split
    · exact List.Sublist.refl ms
    · exact List.filter_sublist ms

lemma searchStage_sublist (search : Option String) (ms : List Movie) :
    List.Sublist (searchStage search ms) ms := by
  cases search with
  | none => exact List.Sublist.refl ms
  | some s =>
    simp only [searchStage]
    split
    · exact List.Sublist.refl ms
    · exact List.filter_sublist ms

lemma listFilter_sublist (genre search : Option String) (ms : List Movie) :
    List.Sublist (listFilter genre search ms) ms :=
  (searchStage_sublist search (genreStage genre ms)).trans (genreStage_sublist genre ms)

lemma paginate_sublist (lim off : Nat) (ms : List Movie) :
    List.Sublist (paginate lim off ms) ms :=
  (List.take_sublist lim (ms.drop off)).trans (List.drop_sublist off ms)

lemma mem_genreStage (genre : Option String) (ms : List Movie) (m : Movie) :
    m ∈ genreStage genre ms ↔ m ∈ ms ∧ genreOk genre m = true := by
  cases genre with
  | none => simp [genreStage, genreOk]
  | some g =>
    by_cases hg : (g == "" || g == "all") = true
    · simp [genreStage, genreOk, hg]
    · simp [genreStage, genreOk, hg, List.mem_filter]

lemma mem_searchStage (search : Option String) (ms : List Movie) (m : Movie) :
    m ∈ searchStage search ms ↔ m ∈ ms ∧ searchOk search m = true := by
  cases search with
  | none => simp [searchStage, searchOk]
  | some s =>
    by_cases hs : (s == "") = true
    · simp [searchStage, searchOk, hs]
    · simp [searchStage, searchOk, hs, List.mem_filter]

lemma trendingHandler_state_perm (db : Option (List Movie)) (lim : Nat) (ms : List Movie) :
    List.Perm (trendingHandler db lim ms).2 ms := by
  cases db with
  | none => exact List.perm_insertionSort ratingDesc ms
  | some l =>
    cases l with
    | nil => exact List.perm_insertionSort ratingDesc ms
    | cons m rest => exact List.Perm.refl ms

/- ------------------------------------------------------------------ -/
/- Claim theorems                                                     -/
/- ------------------------------------------------------------------ -/

/-- Claim C1, counterexample: the List route's in-memory branch does not sort,
so with no filters, default pagination and the initial seed order the returned
sequence (ratings 4.8, 4.5, 4.7, 4.2, 4.6, 4.4) is not descending by rating. -/
theorem list_fallback_initial_order_not_rating_sorted :
    ¬ ((listHandler none none none none 20 0 movies).1.movies.Pairwise ratingDesc) := by
  decide

/-- Claim C1, amended: the in-memory branch of List preserves the seed list's
current order (it only filters and slices), so its output is descending by
rating exactly when the seed list's current order already is — which holds
after an in-place trending sort, but not for the initial seed order. -/
theorem list_fallback_preserves_rating_order (genre search : Option String) (lim off : Nat)
    (ms : List Movie) (h : ms.Pairwise ratingDesc) :
    ((listHandler none none genre search lim off ms).1.movies).Pairwise ratingDesc :=
  List.Pairwise.sublist
    ((paginate_sublist lim off (listFilter genre search ms)).trans
      (listFilter_sublist genre search ms)) h

/-- Witness for the amended C1 theorem at a concrete sorted seed state. -/
theorem list_fallback_preserves_rating_order_witness :
    ((listHandler none none (some "action") none 20 0 (sortByRatingDesc movies)).1.movies).Pairwise
      ratingDesc :=
  list_fallback_preserves_rating_order (some "action") none 20 0 (sortByRatingDesc movies)
    (List.sorted_insertionSort ratingDesc movies)

/-- Claim C2, counterexample: with the store reachable but holding no row for
id 1 (`executeQuery` returns an empty row list), GetById consults the seed set
and returns Quantum Nexus — not a not-found signal. -/
theorem getById_store_miss_consults_seed :
    (getByIdHandler (some []) 1 movies).1 = GetByIdResult.found quantumNexus ∧
    (getByIdHandler (some []) 1 movies).1 ≠ GetByIdResult.notFound := by
  decide

/-- Claim C2, amended: a store query that returns zero rows is treated exactly
like total store unavailability — GetById then falls back to the seed set,
returning the seed movie with that id when present and not-found only when the
seed set misses too. -/
theorem getById_zero_rows_same_as_unavailable (id : Nat) (ms : List Movie) :
    ((getByIdHandler (some []) id ms).1 = (getByIdHandler none id ms).1) ∧
    (∀ m : Movie, ms.find? (fun x => x.id == id) = some m →
      (getByIdHandler (some []) id ms).1 = GetByIdResult.found m) ∧
    (ms.find? (fun x => x.id == id) = none →
      (getByIdHandler (some []) id ms).1 = GetByIdResult.notFound) := by
  refine ⟨rfl, ?_, ?_⟩
  · intro m hm
    simp [getByIdHandler, getByIdResult, hm]
  · intro hm
    simp [getByIdHandler, getByIdResult, hm]

/-- Witness for the amended C2 theorem: id 1 resolves from the seed set after
a reachable-but-empty store answer. -/
theorem getById_zero_rows_same_as_unavailable_witness :
    (getByIdHandler (some []) 1 movies).1 = GetByIdResult.found quantumNexus :=
  (getById_zero_rows_same_as_unavailable 1 movies).2.1 quantumNexus (by decide)

/-- Claim C3: when the store is unavailable both queries of the
recommendations route fail, and the guard on the base-movie query returns a
not-found signal for movieId 1 instead of recomputing over the seed set; the
route's own seed-set fallback — reachable only when the base query succeeded
on the store and the second query then failed — does produce the empty
recommendation list with basedOn "Quantum Nexus" and genre "sci-fi" that the
specification describes. -/
theorem recommendations_unavailable_store_returns_notFound :
    (recommendationsHandler none none 1 4 movies).1 = RecResult.notFound ∧
    (recommendationsHandler (some [quantumNexus]) none 1 4 movies).1 =
      RecResult.ok { recommendations := [], basedOn := "Quantum Nexus", genre := "sci-fi" } := by
  decide

/-- Claim C4, counterexample: the trending route's in-memory branch sorts the
global seed array in place, so after one trending call over the initial seed
order the seed list is no longer the same six records in the same order. -/
theorem trending_reorders_seed_set :
    (trendingHandler none 3 movies).2 ≠ movies := by
  decide

/-- Claim C4, amended: every read operation except Trending leaves the static
seed set unchanged (List, GetById, Recommendations, DistinctGenres, and also
Create, which writes only to the store); Trending's in-memory branch sorts
the seed list in place, which can permute its order but always leaves a
permutation of the same records. -/
theorem reads_preserve_seed_set_up_to_trending_sort :
    (∀ (dbM dbF : Option (List Movie)) (genre search : Option String) (lim off : Nat)
        (ms : List Movie), (listHandler dbM dbF genre search lim off ms).2 = ms) ∧
    (∀ (db : Option (List Movie)) (id : Nat) (ms : List Movie),
        (getByIdHandler db id ms).2 = ms) ∧
    (∀ (bq rq : Option (List Movie)) (mid lim : Nat) (ms : List Movie),
        (recommendationsHandler bq rq mid lim ms).2 = ms) ∧
    (∀ (db : Option (List String)) (ms : List Movie), (genresHandler db ms).2 = ms) ∧
    (∀ (title genre : Option String) (store : Option Nat) (ms : List Movie),
        (createHandler title genre store ms).2 = ms) ∧
    (∀ (db : Option (List Movie)) (lim : Nat) (ms : List Movie),
        List.Perm (trendingHandler db lim ms).2 ms) :=
  ⟨fun _ _ _ _ _ _ _ => rfl, fun _ _ _ => rfl, fun _ _ _ _ _ => rfl, fun _ _ => rfl,
    fun _ _ _ _ => rfl, trendingHandler_state_perm⟩

/-- Claim C5: for every filter combination the List response's total equals
the length of the returned page (in both the store and the in-memory branch),
its page field is floor(offset/limit)+1 and its limit field the given limit;
in the in-memory branch limit and offset are applied by slicing after the
filter pipeline, and an offset at or past the end of the filtered sequence
yields the empty sequence. -/
theorem list_response_total_page_limit (dbM dbF : Option (List Movie))
    (genre search : Option String) (lim off : Nat) (ms : List Movie) (h : 0 < lim) :
    ((listHandler dbM dbF genre search lim off ms).1.total =
      (listHandler dbM dbF genre search lim off ms).1.movies.length) ∧
    ((listHandler dbM dbF genre search lim off ms).1.page = off / lim + 1) ∧
    ((listHandler dbM dbF genre search lim off ms).1.limit = lim) ∧
    ((listHandler none none genre search lim off ms).1.movies =
      ((listFilter genre search ms).drop off).take lim) ∧
    ((listFilter genre search ms).length ≤ off →
      (listHandler none none genre search lim off ms).1.movies = []) := by
  refine ⟨?_, ?_, ?_, rfl, ?_⟩
  · rcases dbM with _ | l
    · rfl
    · rcases l with _ | ⟨m, rest⟩ <;> rfl
  · rcases dbM with _ | l
    · rfl
    · rcases l with _ | ⟨m, rest⟩ <;> rfl
  · rcases dbM with _ | l
    · rfl
    · rcases l with _ | ⟨m, rest⟩ <;> rfl
  · intro hle
    show ((listFilter genre search ms).drop off).take lim = []
    rw [List.drop_eq_nil_of_le hle, List.take_nil]

/-- Witness for the C5 theorem at concrete inputs, with the offset past the
end of the filtered sequence. -/
theorem list_response_total_page_limit_witness :
    0 < 20 ∧
    (((listHandler none none none none 20 100 movies).1.total =
        (listHandler none none none none 20 100 movies).1.movies.length) ∧
      ((listHandler none none none none 20 100 movies).1.page = 100 / 20 + 1) ∧
      ((listHandler none none none none 20 100 movies).1.limit = 20) ∧
      ((listHandler none none none none 20 100 movies).1.movies =
        ((listFilter none none movies).drop 100).take 20) ∧
      ((listFilter none none movies).length ≤ 100 →
        (listHandler none none none none 20 100 movies).1.movies = [])) :=
  ⟨by decide, list_response_total_page_limit none none none none 20 100 movies (by decide)⟩

/-- Claim C6: for every limit, the trending route's in-memory branch returns
the seed movies stably sorted descending by rating and truncated to the
limit; with limit 3 that is exactly Quantum Nexus (4.8), The Last Symphony
(4.7) and Digital Phantom (4.6), in that order. -/
theorem trending_sorted_desc_truncated :
    (∀ lim : Nat,
      ((trendingHandler none lim movies).1).Pairwise ratingDesc ∧
      (trendingHandler none lim movies).1 = (sortByRatingDesc movies).take lim) ∧
    (trendingHandler none 3 movies).1 = [quantumNexus, theLastSymphony, digitalPhantom] := by
  refine ⟨fun lim => ⟨?_, rfl⟩, by decide⟩
  exact List.Pairwise.sublist (List.take_sublist lim (sortByRatingDesc movies))
    (List.sorted_insertionSort ratingDesc movies)

/-- Claim C7: the genres route's in-memory branch returns exactly the five
genre strings action, comedy, drama, sci-fi, thriller — alphabetically
sorted and duplicate-free even though the genre action occurs in two seed
movies. -/
theorem genres_fallback_sorted_distinct :
    (genresHandler none movies).1 = ["action", "comedy", "drama", "sci-fi", "thriller"] ∧
    (genresHandler none movies).1.length = 5 ∧
    (genresHandler none movies).1.Nodup ∧
    ((genresHandler none movies).1).Pairwise genreLe ∧
    (movies.filter (fun m => m.genre == "action")).length = 2 := by
  decide

/-- Claim C8: a movie survives the List route's in-memory filter pipeline iff
it is in the source list, matches the genre exactly whenever a non-empty
genre other than the sentinel "all" is given, and whenever a non-empty search
term is given its lower-cased title or description contains the lower-cased
term; concretely, searching the seed set for "galaxy" returns exactly Cosmic
Comedy Club. -/
theorem list_filter_membership :
    (∀ (genre search : Option String) (ms : List Movie) (m : Movie),
      m ∈ listFilter genre search ms ↔
        m ∈ ms ∧ genreOk genre m = true ∧ searchOk search m = true) ∧
    listFilter none (some "galaxy") movies = [cosmicComedyClub] := by
  constructor
  · intro genre search ms m
    rw [listFilter, mem_searchStage, mem_genreStage, and_assoc]
  · decide

/-- Claim C9: Create returns a validation error whenever title or genre is
absent or empty, inserting nothing into the store; and with both fields
non-empty but the store unreachable it returns a store error with nothing
inserted — in every case the in-memory seed set is untouched (no in-memory
fallback for writes). -/
theorem create_validates_and_never_falls_back (title genre : Option String)
    (store : Option Nat) (ms : List Movie) :
    ((truthy title = false ∨ truthy genre = false) →
      createHandler title genre store ms = ((CreateResult.validationError, false), ms)) ∧
    (truthy title = true → truthy genre = true →
      createHandler title genre none ms = ((CreateResult.storeError, false), ms)) := by
  constructor
  · intro h
    rcases h with h | h <;> simp [createHandler, createResult, h]
  · intro h1 h2
    simp [createHandler, createResult, h1, h2]

/-- Witness for the C9 theorem: an empty title is rejected without a store
insert, and a valid movie against an unreachable store yields a store error,
the seed set unchanged in both cases. -/
theorem create_validates_and_never_falls_back_witness :
    createHandler (some "") (some "action") (some 7) movies =
      ((CreateResult.validationError, false), movies) ∧
    createHandler (some "New Movie") (some "action") none movies =
      ((CreateResult.storeError, false), movies) :=
  ⟨(create_validates_and_never_falls_back (some "") (some "action") (some 7) movies).1
      (Or.inl (by decide)),
    (create_validates_and_never_falls_back (some "New Movie") (some "action") none movies).2
      (by decide) (by decide)⟩

/-- Claim C10: the static seed set holds exactly six records with distinct
ids 1 through 6, non-empty titles and genres, and ratings that are exact
multiples of one tenth (4.8, 4.5, 4.7, 4.2, 4.6, 4.4 stored as tenths); and
every operation preserves the seed set's membership — all handlers return the
seed list unchanged except Trending, whose in-place sort returns a
permutation with exactly the same elements. -/
theorem seed_set_shape_and_membership_invariant :
    movies.length = 6 ∧
    movies.map (fun m => m.id) = [1, 2, 3, 4, 5, 6] ∧
    (movies.map (fun m => m.id)).Nodup ∧
    (∀ m ∈ movies, m.title ≠ "" ∧ m.genre ≠ "") ∧
    movies.map (fun m => m.rating) = [48, 45, 47, 42, 46, 44] ∧
    (∀ (db : Option (List Movie)) (lim : Nat) (ms : List Movie) (m : Movie),
      m ∈ (trendingHandler db lim ms).2 ↔ m ∈ ms) ∧
    (∀ (dbM dbF : Option (List Movie)) (genre search : Option String) (lim off : Nat)
      (ms : List Movie), (listHandler dbM dbF genre search lim off ms).2 = ms) ∧
    (∀ (db : Option (List Movie)) (id : Nat) (ms : List Movie),
      (getByIdHandler db id ms).2 = ms) ∧
    (∀ (bq rq : Option (List Movie)) (mid lim : Nat) (ms : List Movie),
      (recommendationsHandler bq rq mid lim ms).2 = ms) ∧
    (∀ (db : Option (List String)) (ms : List Movie), (genresHandler db ms).2 = ms) ∧
    (∀ (title genre : Option String) (store : Option Nat) (ms : List Movie),
      (createHandler title genre store ms).2 = ms) :=
  ⟨by decide, by decide, by decide, by decide, by decide,
    fun db lim ms m => (trendingHandler_state_perm db lim ms).mem_iff,
    fun _ _ _ _ _ _ _ => rfl, fun _ _ _ => rfl, fun _ _ _ _ _ => rfl, fun _ _ => rfl,
    fun _ _ _ _ => rfl⟩
